import Mathlib

/-!
Verification of the shape-generator core and the rendering dispatch of a
small WebGL demo.  The generators are modelled over the real numbers
(the exact-value abstraction of JavaScript float arithmetic); a second,
IEEE-special-value model `JSNum` captures the Infinity/NaN propagation
of JavaScript numbers, which matters only for the division-by-zero edge
case of the circle generator.
-/

namespace WebGL

/-! ## JavaScript number model with special values -/

/-- A JavaScript number: NaN, the two infinities, or a finite value
(modelled exactly as a real; rounding is abstracted away, the sign of
zero is collapsed to the single real zero). -/
inductive JSNum where
  | nan : JSNum
  | inf : JSNum
  | neginf : JSNum
  | fin : ℝ → JSNum

/-- Math.cos on JavaScript numbers: NaN on NaN and on the infinities. -/
noncomputable def jcos : JSNum → JSNum
  | JSNum.fin x => JSNum.fin (Real.cos x)
  | _ => JSNum.nan

/-- Math.sin on JavaScript numbers: NaN on NaN and on the infinities. -/
noncomputable def jsin : JSNum → JSNum
  | JSNum.fin x => JSNum.fin (Real.sin x)
  | _ => JSNum.nan

/-- IEEE addition on JavaScript numbers (overflow to infinity is not
modelled; finite plus finite stays finite). -/
noncomputable def jadd : JSNum → JSNum → JSNum
  | JSNum.nan, _ => JSNum.nan
  | _, JSNum.nan => JSNum.nan
  | JSNum.inf, JSNum.neginf => JSNum.nan
  | JSNum.neginf, JSNum.inf => JSNum.nan
  | JSNum.inf, _ => JSNum.inf
  | _, JSNum.inf => JSNum.inf
  | JSNum.neginf, _ => JSNum.neginf
  | _, JSNum.neginf => JSNum.neginf
  | JSNum.fin a, JSNum.fin b => JSNum.fin (a + b)

/-- IEEE multiplication on JavaScript numbers; in particular
`0 * Infinity = NaN`. -/
noncomputable def jmul : JSNum → JSNum → JSNum
  | JSNum.nan, _ => JSNum.nan
  | _, JSNum.nan => JSNum.nan
  | JSNum.inf, JSNum.inf => JSNum.inf
  | JSNum.inf, JSNum.neginf => JSNum.neginf
  | JSNum.neginf, JSNum.inf => JSNum.neginf
  | JSNum.neginf, JSNum.neginf => JSNum.inf
  | JSNum.inf, JSNum.fin b =>
      if b = 0 then JSNum.nan else if 0 < b then JSNum.inf else JSNum.neginf
  | JSNum.fin a, JSNum.inf =>
      if a = 0 then JSNum.nan else if 0 < a then JSNum.inf else JSNum.neginf
  | JSNum.neginf, JSNum.fin b =>
      if b = 0 then JSNum.nan else if 0 < b then JSNum.neginf else JSNum.inf
  | JSNum.fin a, JSNum.neginf =>
      if a = 0 then JSNum.nan else if 0 < a then JSNum.neginf else JSNum.inf
  | JSNum.fin a, JSNum.fin b => JSNum.fin (a * b)

/-- IEEE division on JavaScript numbers; in particular a positive finite
value divided by (positive) zero is `Infinity`. -/
noncomputable def jdiv : JSNum → JSNum → JSNum
  | JSNum.nan, _ => JSNum.nan
  | _, JSNum.nan => JSNum.nan
  | JSNum.inf, JSNum.inf => JSNum.nan
  | JSNum.inf, JSNum.neginf => JSNum.nan
  | JSNum.neginf, JSNum.inf => JSNum.nan
  | JSNum.neginf, JSNum.neginf => JSNum.nan
  | JSNum.inf, JSNum.fin b => if 0 ≤ b then JSNum.inf else JSNum.neginf
  | JSNum.neginf, JSNum.fin b => if 0 ≤ b then JSNum.neginf else JSNum.inf
  | JSNum.fin _, JSNum.inf => JSNum.fin 0
  | JSNum.fin _, JSNum.neginf => JSNum.fin 0
  | JSNum.fin a, JSNum.fin b =>
      if b = 0 then
        (if a = 0 then JSNum.nan else if 0 < a then JSNum.inf else JSNum.neginf)
      else JSNum.fin (a / b)

/-! ## The generators, real-valued model

Source (`generateCircleVertices` / `generatePolygonVertices`): start
from `[cx, cy]` (circle) or `[]` (polygon), compute
`angleStep = (Math.PI * 2) / n`, and push `x, y` for each loop index. -/

/-- `generateCircleVertices(cx, cy, radius, numSegments)`: center first,
then `numSegments + 1` samples at angles `i * angleStep`,
`i = 0 .. numSegments` inclusive, pushed flat as `x, y`. -/
noncomputable def generateCircleVertices (cx cy radius : ℝ) (numSegments : ℕ) : List ℝ :=
  let angleStep : ℝ := (Real.pi * 2) / numSegments
  (List.range (numSegments + 1)).foldl
    (fun vertices (i : ℕ) =>
      vertices ++ [cx + radius * Real.cos (i * angleStep),
                   cy + radius * Real.sin (i * angleStep)])
    [cx, cy]

/-- `generatePolygonVertices(cx, cy, radius, numSides)`: `numSides`
samples at angles `i * angleStep`, `i = 0 .. numSides` exclusive, pushed
flat as `x, y`, with no center point. -/
noncomputable def generatePolygonVertices (cx cy radius : ℝ) (numSides : ℕ) : List ℝ :=
  let angleStep : ℝ := (Real.pi * 2) / numSides
  (List.range numSides).foldl
    (fun vertices (i : ℕ) =>
      vertices ++ [cx + radius * Real.cos (i * angleStep),
                   cy + radius * Real.sin (i * angleStep)])
    []

/-! ## The generators, JavaScript special-value model -/

/-- The angle step `(Math.PI * 2) / numSegments` as a JavaScript number;
for `numSegments = 0` this is the division of a positive value by zero. -/
noncomputable def circleAngleStepJS (numSegments : ℕ) : JSNum :=
  jdiv (JSNum.fin (Real.pi * 2)) (JSNum.fin numSegments)

/-- `generateCircleVertices` with JavaScript special-value arithmetic:
identical loop structure, every arithmetic operation routed through the
IEEE model. -/
noncomputable def generateCircleVerticesJS (cx cy radius : ℝ) (numSegments : ℕ) : List JSNum :=
  let angleStep := circleAngleStepJS numSegments
  (List.range (numSegments + 1)).foldl
    (fun vertices (i : ℕ) =>
      vertices ++ [jadd (JSNum.fin cx) (jmul (JSNum.fin radius) (jcos (jmul (JSNum.fin i) angleStep))),
                   jadd (JSNum.fin cy) (jmul (JSNum.fin radius) (jsin (jmul (JSNum.fin i) angleStep)))])
    [JSNum.fin cx, JSNum.fin cy]

/-! ## Fixed shape constants and the shape table -/

/-- The `triangle` constant: apex, bottom-left, bottom-right. -/
noncomputable def triangle : List ℝ :=
  [0, 0.5,
   -0.5, -0.5,
   0.5, -0.5]

/-- The `rectangle` constant: two triangles covering the unit square of
half-extent 0.5. -/
noncomputable def rectangle : List ℝ :=
  [-0.5, 0.5,
   -0.5, -0.5,
   0.5, -0.5,
   -0.5, 0.5,
   0.5, -0.5,
   0.5, 0.5]

/-- The `line` constant: start point and end point. -/
noncomputable def line : List ℝ :=
  [-0.5, 0,
   0.5, 0]

/-- The `circle` entry of the shape table. -/
noncomputable def circle : List ℝ := generateCircleVertices 0 0 0.5 50

/-- The `polygon` entry of the shape table (a hexagon). -/
noncomputable def polygon : List ℝ := generatePolygonVertices 0 0 0.5 6

/-- The `shapes` object: an association of shape names to their vertex
arrays, in source order. -/
noncomputable def shapes : List (String × List ℝ) :=
  [("triangle", triangle),
   ("rectangle", rectangle),
   ("circle", circle),
   ("line", line),
   ("polygon", polygon)]

/-- The value of a JavaScript property access on the `shapes` object
literal: an own key holds a vertex array; a key of `Object.prototype`
is found through the prototype chain and holds a truthy non-array
value; any other key is undefined (falsy). -/
inductive JSProp where
  | vertices : List ℝ → JSProp
  | inherited : JSProp
  | undef : JSProp

/-- The own keys of `Object.prototype`, every one bound to a truthy
value (a function, or the prototype object itself for `__proto__`);
property access on an object literal falls back to these through the
prototype chain. -/
def objectPrototypeKeys : List String :=
  ["constructor", "hasOwnProperty", "isPrototypeOf", "propertyIsEnumerable",
   "toLocaleString", "toString", "valueOf", "__proto__",
   "__defineGetter__", "__defineSetter__", "__lookupGetter__", "__lookupSetter__"]

/-- The property access `shapes[shapeName]`: an own key yields its
vertex array; otherwise the prototype chain is consulted, so a key of
`Object.prototype` yields a truthy inherited value; everything else is
undefined. -/
noncomputable def shapesLookup (shapeName : String) : JSProp :=
  match shapes.find? fun p => p.1 == shapeName with
  | some p => JSProp.vertices p.2
  | none =>
      if shapeName ∈ objectPrototypeKeys then JSProp.inherited else JSProp.undef

/-- The `.length` read on the looked-up value, as used in the vertex
count `shapeVertices.length / 2`.  The count is only consulted inside
the five named draw cases, whose lookup always yields a vertex array,
so the value chosen for the other arms is never observed there. -/
noncomputable def jspropLength : JSProp → ℕ
  | JSProp.vertices v => v.length
  | _ => 0

/-! ## Derived geometric notions used to state the claims -/

/-- The `k`-th two-dimensional point of a flat coordinate list. -/
noncomputable def pointAt (l : List ℝ) (k : ℕ) : Option (ℝ × ℝ) :=
  match l[2 * k]?, l[2 * k + 1]? with
  | some x, some y => some (x, y)
  | _, _ => none

/-- Squared Euclidean distance between two points. -/
noncomputable def distSq (p q : ℝ × ℝ) : ℝ :=
  (p.1 - q.1) ^ 2 + (p.2 - q.2) ^ 2

/-- Twice the signed area of the triangle `a b p`; positive when `p`
lies strictly to the left of the directed edge `a → b`. -/
noncomputable def orient (a b p : ℝ × ℝ) : ℝ :=
  (b.1 - a.1) * (p.2 - a.2) - (b.2 - a.2) * (p.1 - a.1)

/-- The triangle `a b c` is wound counter-clockwise. -/
def ccw (a b c : ℝ × ℝ) : Prop := 0 < orient a b c

/-- Membership of `p` in the closed triangle `a b c` (for a
counter-clockwise triangle: on the left of, or on, each directed edge). -/
def inTri (a b c p : ℝ × ℝ) : Prop :=
  0 ≤ orient a b p ∧ 0 ≤ orient b c p ∧ 0 ≤ orient c a p

/-! ## The rendering dispatch `drawShape` -/

/-- WebGL primitive draw modes used by `drawShape`. -/
inductive DrawMode where
  | TRIANGLES : DrawMode
  | TRIANGLE_FAN : DrawMode
  | LINES : DrawMode
  | LINE_LOOP : DrawMode
deriving DecidableEq

/-- The identifier passed to the attribute-binding calls: either the
computed constant `aPositionLocation`, or the distinct global
identifier `location` that the source actually references. -/
inductive AttribArg where
  | aPositionLocation : AttribArg
  | location : AttribArg
deriving DecidableEq

/-- Observable effects of one `drawShape` call; `bufferData` is the
value handed to `gl.bufferData` when that call is reached. -/
structure DrawResult where
  bufferCreated : Bool
  bufferData : Option JSProp
  getAttribLocationCalled : Bool
  enableVertexAttribArrayArg : Option AttribArg
  vertexAttribPointerArg : Option AttribArg
  cleared : Bool
  draws : List (DrawMode × ℕ)
  notFoundError : Bool
  unsupportedError : Bool

/-- `drawShape(gl, shapeName)`: read `shapes[shapeName]`; only a falsy
value (undefined) makes the guard log the lookup failure and return
early.  Any truthy value — a vertex array or a property inherited from
`Object.prototype` — proceeds: create and fill a buffer, compute the
attribute location (but pass the identifier `location` to both binding
calls, as the source does), clear, then switch on the shape name: the
five registered names issue one draw call with half the coordinate
count, every other name falls to the default case that logs the
unsupported-shape error. -/
noncomputable def drawShape (shapeName : String) : DrawResult :=
  match shapesLookup shapeName with
  | JSProp.undef =>
      { bufferCreated := false
        bufferData := none
        getAttribLocationCalled := false
        enableVertexAttribArrayArg := none
        vertexAttribPointerArg := none
        cleared := false
        draws := []
        notFoundError := true
        unsupportedError := false }
  | shapeVertices =>
      let count := jspropLength shapeVertices / 2
      let modeDraws : List (DrawMode × ℕ) × Bool :=
        if shapeName = "triangle" ∨ shapeName = "rectangle" then
          ([(DrawMode.TRIANGLES, count)], false)
        else if shapeName = "circle" then ([(DrawMode.TRIANGLE_FAN, count)], false)
        else if shapeName = "line" then ([(DrawMode.LINES, count)], false)
        else if shapeName = "polygon" then ([(DrawMode.LINE_LOOP, count)], false)
        else ([], true)
      { bufferCreated := true
        bufferData := some shapeVertices
        getAttribLocationCalled := true
        enableVertexAttribArrayArg := some AttribArg.location
        vertexAttribPointerArg := some AttribArg.location
        cleared := true
        draws := modeDraws.1
        notFoundError := false
        unsupportedError := modeDraws.2 }

/-! ## Helper lemmas about the loop structure -/

/-- A fold that only appends blocks is the initial list followed by the
concatenation of the blocks. -/
lemma foldl_push_eq {α β : Type} (f : α → List β) (l : List α) :
    ∀ init : List β, l.foldl (fun acc i => acc ++ f i) init = init ++ l.flatMap f := by
  induction l with
  | nil => intro init; simp
  | cons a t ih =>
      intro init
      simp only [List.foldl_cons, List.flatMap_cons]
      rw [ih]
      simp [List.append_assoc]

/-- Normal form of the circle generator. -/
lemma generateCircleVertices_eq (cx cy r : ℝ) (n : ℕ) :
    generateCircleVertices cx cy r n =
      [cx, cy] ++ (List.range' 0 (n + 1)).flatMap
        (fun i => [cx + r * Real.cos (i * ((Real.pi * 2) / n)),
                   cy + r * Real.sin (i * ((Real.pi * 2) / n))]) := by
  simp only [generateCircleVertices]
  rw [← List.range_eq_range']
  exact foldl_push_eq _ _ _

/-- Normal form of the polygon generator. -/
lemma generatePolygonVertices_eq (cx cy r : ℝ) (n : ℕ) :
    generatePolygonVertices cx cy r n =
      (List.range' 0 n).flatMap
        (fun i => [cx + r * Real.cos (i * ((Real.pi * 2) / n)),
                   cy + r * Real.sin (i * ((Real.pi * 2) / n))]) := by
  simp only [generatePolygonVertices]
  rw [← List.range_eq_range']
  have h := foldl_push_eq
    (fun i : ℕ => [cx + r * Real.cos (i * ((Real.pi * 2) / n)),
                   cy + r * Real.sin (i * ((Real.pi * 2) / n))])
    (List.range n) []
  simpa using h

/-- Length of a concatenation of two-element blocks. -/
lemma length_blocks (f g : ℕ → ℝ) (m : ℕ) :
    ∀ a, ((List.range' a m).flatMap fun j => [f j, g j]).length = 2 * m := by
  induction m with
  | zero => intro a; simp
  | succ k ih =>
      intro a
      rw [List.range'_succ]
      simp only [List.flatMap_cons, List.length_append, ih (a + 1)]
      simp
      omega

/-- Reading the first point of a flat list. -/
lemma pointAt_zero (x y : ℝ) (l : List ℝ) :
    pointAt (x :: y :: l) 0 = some (x, y) := by
  simp [pointAt]

/-- Dropping one leading point shifts the point index by one. -/
lemma pointAt_cons2 (x y : ℝ) (l : List ℝ) (k : ℕ) :
    pointAt (x :: y :: l) (k + 1) = pointAt l k := by
  have h : 2 * (k + 1) = 2 * k + 1 + 1 := by omega
  simp only [pointAt, h, List.getElem?_cons_succ]

/-- Indexing into a concatenation of two-element blocks. -/
lemma pointAt_blocks (f g : ℕ → ℝ) :
    ∀ (m a i : ℕ), i < m →
      pointAt ((List.range' a m).flatMap fun j => [f j, g j]) i =
        some (f (a + i), g (a + i)) := by
  intro m
  induction m with
  | zero => intro a i h; exact absurd h (Nat.not_lt_zero i)
  | succ k ih =>
      intro a i h
      rw [List.range'_succ, List.flatMap_cons]
      simp only [List.cons_append, List.nil_append]
      cases i with
      | zero => simpa using pointAt_zero (f a) (g a) _
      | succ j =>
          have hj : j < k := by omega
          have hadd : a + 1 + j = a + (j + 1) := by omega
          rw [pointAt_cons2, ih (a + 1) j hj, hadd]

/-- Past the end of a flat list there is no point. -/
lemma pointAt_eq_none (l : List ℝ) (k : ℕ) (h : l.length ≤ 2 * k) :
    pointAt l k = none := by
  have h1 : l[2 * k]? = none := List.getElem?_eq_none h
  have h2 : l[2 * k + 1]? = none := List.getElem?_eq_none (by omega)
  simp [pointAt, h1, h2]

/-- The circle generator has `2 * (n + 2)` coordinates. -/
lemma circle_length (cx cy r : ℝ) (n : ℕ) :
    (generateCircleVertices cx cy r n).length = 2 * (n + 2) := by
  rw [generateCircleVertices_eq, List.length_append, length_blocks _ _ (n + 1) 0]
  simp
  omega

/-- The polygon generator has `2 * n` coordinates. -/
lemma polygon_length (cx cy r : ℝ) (n : ℕ) :
    (generatePolygonVertices cx cy r n).length = 2 * n := by
  rw [generatePolygonVertices_eq, length_blocks _ _ n 0]

/-- Point 0 of the circle generator is the center. -/
lemma circle_pointAt_zero (cx cy r : ℝ) (n : ℕ) :
    pointAt (generateCircleVertices cx cy r n) 0 = some (cx, cy) := by
  rw [generateCircleVertices_eq]
  simp only [List.cons_append, List.nil_append]
  exact pointAt_zero cx cy _

/-- Point `i + 1` of the circle generator is the `i`-th circumference
sample. -/
lemma circle_pointAt_succ (cx cy r : ℝ) (n i : ℕ) (h : i < n + 1) :
    pointAt (generateCircleVertices cx cy r n) (i + 1) =
      some (cx + r * Real.cos (i * ((Real.pi * 2) / n)),
            cy + r * Real.sin (i * ((Real.pi * 2) / n))) := by
  rw [generateCircleVertices_eq]
  simp only [List.cons_append, List.nil_append]
  rw [pointAt_cons2]
  have hb := pointAt_blocks
    (fun j : ℕ => cx + r * Real.cos (j * ((Real.pi * 2) / n)))
    (fun j : ℕ => cy + r * Real.sin (j * ((Real.pi * 2) / n))) (n + 1) 0 i h
  simpa using hb

/-- Point `i` of the polygon generator is the `i`-th circumference
sample. -/
lemma polygon_pointAt (cx cy r : ℝ) (n i : ℕ) (h : i < n) :
    pointAt (generatePolygonVertices cx cy r n) i =
      some (cx + r * Real.cos (i * ((Real.pi * 2) / n)),
            cy + r * Real.sin (i * ((Real.pi * 2) / n))) := by
  rw [generatePolygonVertices_eq]
  have hb := pointAt_blocks
    (fun j : ℕ => cx + r * Real.cos (j * ((Real.pi * 2) / n)))
    (fun j : ℕ => cy + r * Real.sin (j * ((Real.pi * 2) / n))) n 0 i h
  simpa using hb

/-! ## Claim C1 -/

/-- Claim C1: for every center, radius `r > 0` and segment count
`n ≥ 3`, `generateCircleVertices` returns `n + 2` points; point 0 is the
center, point `i + 1` is `(cx + r cos(i 2π/n), cy + r sin(i 2π/n))` for
every `i ≤ n`, and point 1 equals point `n + 1` (closed seam). -/
theorem circle_generator_spec (cx cy r : ℝ) (n : ℕ) (hr : 0 < r) (hn : 3 ≤ n) :
    (generateCircleVertices cx cy r n).length = 2 * (n + 2) ∧
    pointAt (generateCircleVertices cx cy r n) 0 = some (cx, cy) ∧
    (∀ i : ℕ, i ≤ n →
      pointAt (generateCircleVertices cx cy r n) (i + 1) =
        some (cx + r * Real.cos (i * (2 * Real.pi / n)),
              cy + r * Real.sin (i * (2 * Real.pi / n)))) ∧
    pointAt (generateCircleVertices cx cy r n) 1 =
      pointAt (generateCircleVertices cx cy r n) (n + 1) := by
  have hstep : (Real.pi * 2) / (n : ℝ) = 2 * Real.pi / n := by ring_nf
  have hpt : ∀ i : ℕ, i ≤ n →
      pointAt (generateCircleVertices cx cy r n) (i + 1) =
        some (cx + r * Real.cos (i * (2 * Real.pi / n)),
              cy + r * Real.sin (i * (2 * Real.pi / n))) := by
    intro i hi
    rw [circle_pointAt_succ cx cy r n i (by omega), hstep]
  refine ⟨circle_length cx cy r n, circle_pointAt_zero cx cy r n, hpt, ?_⟩
  have h1 := hpt 0 (Nat.zero_le n)
  have h2 := hpt n le_rfl
  simp only [Nat.cast_zero, zero_mul, Real.cos_zero, Real.sin_zero, zero_add] at h1
  have hn0 : (n : ℝ) ≠ 0 := Nat.cast_ne_zero.mpr (by omega)
  have e2 : (n : ℝ) * (2 * Real.pi / n) = 2 * Real.pi := by field_simp
  rw [e2, Real.cos_two_pi, Real.sin_two_pi] at h2
  rw [h1, h2]

/-- Witness for C1 at center `(0,0)`, radius 1, four segments. -/
theorem circle_generator_spec_witness :
    pointAt (generateCircleVertices 0 0 1 4) 0 = some (0, 0) :=
  (circle_generator_spec 0 0 1 4 (by norm_num) (by norm_num)).2.1

/-! ## Claim C2 -/

/-- Claim C2: for every center, radius `r > 0` and side count `n ≥ 3`,
`generatePolygonVertices` returns exactly `n` points, point `i` being
`(cx + r cos(i 2π/n), cy + r sin(i 2π/n))` for `i < n`, with no center
point and no closing duplicate; at `(0,0,1,4)` the output is exactly
`(1,0), (0,1), (-1,0), (0,-1)`. -/
theorem polygon_generator_spec (cx cy r : ℝ) (n : ℕ) (hr : 0 < r) (hn : 3 ≤ n) :
    (generatePolygonVertices cx cy r n).length = 2 * n ∧
    (∀ i : ℕ, i < n →
      pointAt (generatePolygonVertices cx cy r n) i =
        some (cx + r * Real.cos (i * (2 * Real.pi / n)),
              cy + r * Real.sin (i * (2 * Real.pi / n)))) ∧
    pointAt (generatePolygonVertices cx cy r n) n = none ∧
    generatePolygonVertices 0 0 1 4 = [1, 0, 0, 1, -1, 0, 0, -1] := by
  have hstep : (Real.pi * 2) / (n : ℝ) = 2 * Real.pi / n := by ring_nf
  refine ⟨polygon_length cx cy r n, ?_, ?_, ?_⟩
  · intro i hi
    rw [polygon_pointAt cx cy r n i hi, hstep]
  · exact pointAt_eq_none _ _ (le_of_eq (polygon_length cx cy r n))
  · rw [generatePolygonVertices_eq, show List.range' 0 4 = [0, 1, 2, 3] from rfl]
    have hq : Real.pi * 2 / ((4 : ℕ) : ℝ) = Real.pi / 2 := by push_cast; ring
    simp only [List.flatMap_cons, List.flatMap_nil, List.append_nil, List.cons_append,
      List.nil_append, hq]
    have c2 : (((2 : ℕ) : ℝ)) * (Real.pi / 2) = Real.pi := by push_cast; ring
    have c3 : (((3 : ℕ) : ℝ)) * (Real.pi / 2) = Real.pi + Real.pi / 2 := by push_cast; ring
    simp only [Nat.cast_zero, Nat.cast_one, zero_mul, one_mul, c2, c3,
      Real.cos_zero, Real.sin_zero, Real.cos_pi_div_two, Real.sin_pi_div_two,
      Real.cos_pi, Real.sin_pi, Real.cos_add, Real.sin_add]
    norm_num

/-- Witness for C2 at center `(0,0)`, radius 1, four sides. -/
theorem polygon_generator_spec_witness :
    generatePolygonVertices 0 0 1 4 = [1, 0, 0, 1, -1, 0, 0, -1] :=
  (polygon_generator_spec 0 0 1 4 (by norm_num) (by norm_num)).2.2.2

/-! ## Claim C3 -/

/-- Counterexample to C3: with radius 0 and count 2 — both invalid
according to the specification — the generators are not rejected: they
return coordinate arrays of the usual lengths, and the circle generator
even returns well-defined points (the center). -/
theorem invalid_params_not_rejected_cex :
    (generateCircleVertices 0 0 0 2).length = 8 ∧
    (generatePolygonVertices 0 0 0 2).length = 4 ∧
    pointAt (generateCircleVertices 0 0 0 2) 1 = some (0, 0) := by
  refine ⟨by simpa using circle_length 0 0 0 2,
          by simpa using polygon_length 0 0 0 2, ?_⟩
  have h := circle_pointAt_succ 0 0 0 2 0 (by omega)
  simpa using h

/-- Claim C3 as amended: the generators perform no validation; for any
invalid parameters they still return arrays of the standard lengths
(`2(n+2)` and `2n`), and a zero radius silently yields degenerate
geometry (every sample equal to the center) instead of an
InvalidParameter error. -/
theorem invalid_params_accepted (cx cy : ℝ) (n : ℕ) (hn : 1 ≤ n) :
    (∀ r : ℝ, (generateCircleVertices cx cy r n).length = 2 * (n + 2) ∧
              (generatePolygonVertices cx cy r n).length = 2 * n) ∧
    (∀ i : ℕ, i ≤ n →
      pointAt (generateCircleVertices cx cy 0 n) (i + 1) = some (cx, cy)) ∧
    (∀ i : ℕ, i < n →
      pointAt (generatePolygonVertices cx cy 0 n) i = some (cx, cy)) := by
  refine ⟨fun r => ⟨circle_length cx cy r n, polygon_length cx cy r n⟩, ?_, ?_⟩
  · intro i hi
    have h := circle_pointAt_succ cx cy 0 n i (by omega)
    simpa using h
  · intro i hi
    have h := polygon_pointAt cx cy 0 n i hi
    simpa using h

/-- Witness for the amended C3 at radius 0 and count 2. -/
theorem invalid_params_accepted_witness :
    pointAt (generateCircleVertices 0 0 0 2) 2 = some (0, 0) :=
  (invalid_params_accepted 0 0 2 (by norm_num)).2.1 1 (by norm_num)

/-! ## Claim C4 -/

/-- Every circumference sample lies at distance `r` from the center. -/
lemma sqrt_distSq_sample (cx cy r θ : ℝ) (hr : 0 ≤ r) :
    Real.sqrt (distSq (cx + r * Real.cos θ, cy + r * Real.sin θ) (cx, cy)) = r := by
  have hd : distSq (cx + r * Real.cos θ, cy + r * Real.sin θ) (cx, cy) = r ^ 2 := by
    simp only [distSq]
    linear_combination r ^ 2 * Real.sin_sq_add_cos_sq θ
  rw [hd, Real.sqrt_sq hr]

/-- Counterexample to C4: the first point of the circle sequence is the
center itself, at distance 0, not at distance `r = 1`. -/
theorem distance_claim_cex :
    pointAt (generateCircleVertices 0 0 1 4) 0 = some (0, 0) ∧
    Real.sqrt (distSq (0, 0) (0, 0)) ≠ 1 := by
  refine ⟨circle_pointAt_zero 0 0 1 4, ?_⟩
  simp [distSq]

/-- Claim C4 as amended: for `r > 0` and `n ≥ 3`, every circumference
sample of the circle (points 1 through `n + 1`) and every polygon point
lies at Euclidean distance exactly `r` from the center; the one
exception is the first point of the circle sequence, the center itself,
which lies at distance 0. -/
theorem distance_from_center (cx cy r : ℝ) (n : ℕ) (hr : 0 < r) (hn : 3 ≤ n) :
    (∀ i : ℕ, i ≤ n → ∀ p : ℝ × ℝ,
        pointAt (generateCircleVertices cx cy r n) (i + 1) = some p →
        Real.sqrt (distSq p (cx, cy)) = r) ∧
    (∀ p : ℝ × ℝ, pointAt (generateCircleVertices cx cy r n) 0 = some p →
        Real.sqrt (distSq p (cx, cy)) = 0) ∧
    (∀ i : ℕ, i < n → ∀ p : ℝ × ℝ,
        pointAt (generatePolygonVertices cx cy r n) i = some p →
        Real.sqrt (distSq p (cx, cy)) = r) := by
  refine ⟨?_, ?_, ?_⟩
  · intro i hi p hp
    rw [circle_pointAt_succ cx cy r n i (by omega)] at hp
    have hpeq := Option.some.inj hp
    rw [← hpeq]
    exact sqrt_distSq_sample cx cy r _ hr.le
  · intro p hp
    rw [circle_pointAt_zero cx cy r n] at hp
    have hpeq := Option.some.inj hp
    rw [← hpeq]
    simp [distSq]
  · intro i hi p hp
    rw [polygon_pointAt cx cy r n i hi] at hp
    have hpeq := Option.some.inj hp
    rw [← hpeq]
    exact sqrt_distSq_sample cx cy r _ hr.le

/-- Witness for the amended C4: the center point of the circle sequence
at `(0,0,1,4)` is at distance 0. -/
theorem distance_from_center_witness :
    Real.sqrt (distSq (0, 0) (0, 0)) = 0 :=
  (distance_from_center 0 0 1 4 (by norm_num) (by norm_num)).2.1 (0, 0)
    (circle_pointAt_zero 0 0 1 4)

/-! ## Claim C5 -/

/-- The two rectangle triangles cover the square of half-extent 0.5:
the anti-diagonal `y = -x` splits the square between them. -/
lemma square_covered (x y : ℝ) (hx1 : -0.5 ≤ x) (hx2 : x ≤ 0.5)
    (hy1 : -0.5 ≤ y) (hy2 : y ≤ 0.5) :
    inTri (-0.5, 0.5) (-0.5, -0.5) (0.5, -0.5) (x, y) ∨
    inTri (-0.5, 0.5) (0.5, -0.5) (0.5, 0.5) (x, y) := by
  rcases le_total y (-x) with h | h
  · left
    refine ⟨?_, ?_, ?_⟩ <;> simp only [inTri, orient] <;> norm_num <;> linarith
  · right
    refine ⟨?_, ?_, ?_⟩ <;> simp only [inTri, orient] <;> norm_num <;> linarith

/-- Claim C5: the fixed shape constants are exactly as specified —
triangle of 3 points with the given apex and base corners; line of the
two points `(-0.5, 0)` and `(0.5, 0)`, a horizontal unit-length segment;
rectangle of 6 points forming two counter-clockwise triangles that cover
the square of half-extent 0.5 centered at the origin. -/
theorem shape_constants_spec :
    (triangle.length = 2 * 3 ∧
     pointAt triangle 0 = some (0, 0.5) ∧
     pointAt triangle 1 = some (-0.5, -0.5) ∧
     pointAt triangle 2 = some (0.5, -0.5) ∧
     pointAt triangle 3 = none) ∧
    (line = [-0.5, 0, 0.5, 0] ∧
     pointAt line 0 = some (-0.5, 0) ∧
     pointAt line 1 = some (0.5, 0) ∧
     Real.sqrt (distSq (0.5, 0) (-0.5, 0)) = 1 ∧
     ((-0.5 : ℝ) + 0.5) / 2 = 0) ∧
    (rectangle.length = 2 * 6 ∧
     pointAt rectangle 0 = some (-0.5, 0.5) ∧
     pointAt rectangle 1 = some (-0.5, -0.5) ∧
     pointAt rectangle 2 = some (0.5, -0.5) ∧
     pointAt rectangle 3 = some (-0.5, 0.5) ∧
     pointAt rectangle 4 = some (0.5, -0.5) ∧
     pointAt rectangle 5 = some (0.5, 0.5) ∧
     pointAt rectangle 6 = none ∧
     ccw (-0.5, 0.5) (-0.5, -0.5) (0.5, -0.5) ∧
     ccw (-0.5, 0.5) (0.5, -0.5) (0.5, 0.5)) ∧
    (∀ x y : ℝ, -0.5 ≤ x → x ≤ 0.5 → -0.5 ≤ y → y ≤ 0.5 →
      inTri (-0.5, 0.5) (-0.5, -0.5) (0.5, -0.5) (x, y) ∨
      inTri (-0.5, 0.5) (0.5, -0.5) (0.5, 0.5) (x, y)) := by
  have hline : Real.sqrt (distSq (0.5, 0) (-0.5, 0)) = 1 := by
    have hd : distSq ((0.5 : ℝ), (0 : ℝ)) (-0.5, 0) = 1 := by norm_num [distSq]
    rw [hd, Real.sqrt_one]
  refine ⟨⟨rfl, rfl, rfl, rfl, rfl⟩,
          ⟨rfl, rfl, rfl, hline, by norm_num⟩,
          ⟨rfl, rfl, rfl, rfl, rfl, rfl, rfl, rfl, ?_, ?_⟩,
          square_covered⟩
  · show (0 : ℝ) < orient (-0.5, 0.5) (-0.5, -0.5) (0.5, -0.5)
    norm_num [orient]
  · show (0 : ℝ) < orient (-0.5, 0.5) (0.5, -0.5) (0.5, 0.5)
    norm_num [orient]

/-- Witness for C5: an interior point of the square is covered by one of
the two rectangle triangles. -/
theorem shape_constants_spec_witness :
    inTri (-0.5, 0.5) (-0.5, -0.5) (0.5, -0.5) (0.25, -0.3) ∨
    inTri (-0.5, 0.5) (0.5, -0.5) (0.5, 0.5) (0.25, -0.3) :=
  shape_constants_spec.2.2.2 0.25 (-0.3) (by norm_num) (by norm_num)
    (by norm_num) (by norm_num)

/-! ## Lookup and length evaluations for the shape table -/

/-- Looking up the key "triangle". -/
lemma shapesLookup_triangle : shapesLookup "triangle" = JSProp.vertices triangle := by
  simp [shapesLookup, shapes, List.find?]

/-- Looking up the key "rectangle". -/
lemma shapesLookup_rectangle : shapesLookup "rectangle" = JSProp.vertices rectangle := by
  simp [shapesLookup, shapes, List.find?]

/-- Looking up the key "circle". -/
lemma shapesLookup_circle : shapesLookup "circle" = JSProp.vertices circle := by
  simp [shapesLookup, shapes, List.find?]

/-- Looking up the key "line". -/
lemma shapesLookup_line : shapesLookup "line" = JSProp.vertices line := by
  simp [shapesLookup, shapes, List.find?]

/-- Looking up the key "polygon". -/
lemma shapesLookup_polygon : shapesLookup "polygon" = JSProp.vertices polygon := by
  simp [shapesLookup, shapes, List.find?]

/-- A name found only on the prototype chain is not one of the five
registered own keys. -/
lemma inherited_not_registered (shapeName : String)
    (h : shapesLookup shapeName = JSProp.inherited) :
    shapeName ≠ "triangle" ∧ shapeName ≠ "rectangle" ∧ shapeName ≠ "circle" ∧
    shapeName ≠ "line" ∧ shapeName ≠ "polygon" := by
  simp only [shapesLookup] at h
  rcases hq : shapes.find? fun p => p.1 == shapeName with _ | q
  · rw [hq] at h
    have hall := List.find?_eq_none.mp hq
    refine ⟨?_, ?_, ?_, ?_, ?_⟩ <;> intro he
    · exact (by simpa [he] using hall ("triangle", triangle) (by simp [shapes]))
    · exact (by simpa [he] using hall ("rectangle", rectangle) (by simp [shapes]))
    · exact (by simpa [he] using hall ("circle", circle) (by simp [shapes]))
    · exact (by simpa [he] using hall ("line", line) (by simp [shapes]))
    · exact (by simpa [he] using hall ("polygon", polygon) (by simp [shapes]))
  · rw [hq] at h
    simp at h

/-- The circle table entry has 104 coordinates (52 points). -/
lemma circle_val_length : circle.length = 104 := by
  simp only [circle, circle_length]

/-- The polygon table entry has 12 coordinates (6 points). -/
lemma polygon_val_length : polygon.length = 12 := by
  simp only [polygon, polygon_length]

/-! ## Claim C6 -/

/-- Claim C6: `drawShape` issues exactly one draw call per registered
shape, with the specified mode — filled triangles for triangle and
rectangle, a triangle fan for circle, line segments for line, a closed
line loop for polygon — and with vertex count equal to half the length
of the coordinate array. -/
theorem drawShape_modes :
    (drawShape "triangle").draws = [(DrawMode.TRIANGLES, triangle.length / 2)] ∧
    (drawShape "rectangle").draws = [(DrawMode.TRIANGLES, rectangle.length / 2)] ∧
    (drawShape "circle").draws = [(DrawMode.TRIANGLE_FAN, circle.length / 2)] ∧
    (drawShape "line").draws = [(DrawMode.LINES, line.length / 2)] ∧
    (drawShape "polygon").draws = [(DrawMode.LINE_LOOP, polygon.length / 2)] ∧
    triangle.length / 2 = 3 ∧ rectangle.length / 2 = 6 ∧
    circle.length / 2 = 52 ∧ line.length / 2 = 2 ∧ polygon.length / 2 = 6 := by
  refine ⟨?_, ?_, ?_, ?_, ?_, rfl, rfl, ?_, rfl, ?_⟩
  · simp [drawShape, shapesLookup_triangle, jspropLength]
  · simp [drawShape, shapesLookup_rectangle, jspropLength]
  · simp [drawShape, shapesLookup_circle, jspropLength]
  · simp [drawShape, shapesLookup_line, jspropLength]
  · simp [drawShape, shapesLookup_polygon, jspropLength]
  · rw [circle_val_length]
  · rw [polygon_val_length]

/-! ## Claim C7 -/

/-- Counterexample to C7: "constructor" is not one of the five
registered shapes, yet the inherited `Object.prototype.constructor`
value is truthy, so `drawShape` does not report a lookup failure or
return early — it creates and fills a buffer with the non-array value
and falls to the switch default, logging the unsupported-shape error
instead (no draw call is issued). -/
theorem prototype_hit_not_rejected_cex :
    (drawShape "constructor").bufferCreated = true ∧
    (drawShape "constructor").bufferData = some JSProp.inherited ∧
    (drawShape "constructor").notFoundError = false ∧
    (drawShape "constructor").unsupportedError = true ∧
    (drawShape "constructor").draws = [] := by
  have hlook : shapesLookup "constructor" = JSProp.inherited := by
    simp [shapesLookup, shapes, List.find?, objectPrototypeKeys]
  simp [drawShape, hlook]

/-- Claim C7 as amended: a shape name that misses both the five own
keys and the prototype chain (undefined access) makes `drawShape` log
the lookup failure and return early — no buffer, no attribute binding,
no clear and no draw call; but a name inherited from
`Object.prototype` passes the truthiness guard, so the buffer is
created and filled with the inherited non-array value and the switch
default logs the unsupported-shape error instead of the lookup
failure, still issuing no draw call and never crashing. -/
theorem drawShape_unknown (shapeName : String) :
    (shapesLookup shapeName = JSProp.undef →
      (drawShape shapeName).bufferCreated = false ∧
      (drawShape shapeName).bufferData = none ∧
      (drawShape shapeName).getAttribLocationCalled = false ∧
      (drawShape shapeName).enableVertexAttribArrayArg = none ∧
      (drawShape shapeName).vertexAttribPointerArg = none ∧
      (drawShape shapeName).cleared = false ∧
      (drawShape shapeName).draws = [] ∧
      (drawShape shapeName).notFoundError = true) ∧
    (shapesLookup shapeName = JSProp.inherited →
      (drawShape shapeName).bufferCreated = true ∧
      (drawShape shapeName).bufferData = some JSProp.inherited ∧
      (drawShape shapeName).draws = [] ∧
      (drawShape shapeName).notFoundError = false ∧
      (drawShape shapeName).unsupportedError = true) := by
  constructor
  · intro h
    simp [drawShape, h]
  · intro h
    obtain ⟨h1, h2, h3, h4, h5⟩ := inherited_not_registered shapeName h
    simp [drawShape, h, h1, h2, h3, h4, h5]

/-- Witness for C7 at the undefined name "hexagon" and the inherited
name "toString". -/
theorem drawShape_unknown_witness :
    ((drawShape "hexagon").draws = [] ∧
     (drawShape "hexagon").bufferCreated = false ∧
     (drawShape "hexagon").notFoundError = true) ∧
    ((drawShape "toString").bufferCreated = true ∧
     (drawShape "toString").unsupportedError = true) := by
  have h1 := (drawShape_unknown "hexagon").1
    (by simp [shapesLookup, shapes, List.find?, objectPrototypeKeys])
  have h2 := (drawShape_unknown "toString").2
    (by simp [shapesLookup, shapes, List.find?, objectPrototypeKeys])
  exact ⟨⟨h1.2.2.2.2.2.2.1, h1.1, h1.2.2.2.2.2.2.2⟩, ⟨h2.1, h2.2.2.2.2⟩⟩

/-! ## Claim C8 -/

/-- Claim C8: the generators are deterministic — two calls with equal
arguments return equal (in the model: identical) coordinate sequences.
In the embedding both generators are pure functions of their arguments,
so this is definitional. -/
theorem generators_deterministic (cx cy r : ℝ) (n : ℕ) (cx2 cy2 r2 : ℝ) (n2 : ℕ)
    (h1 : cx = cx2) (h2 : cy = cy2) (h3 : r = r2) (h4 : n = n2) :
    generateCircleVertices cx cy r n = generateCircleVertices cx2 cy2 r2 n2 ∧
    generatePolygonVertices cx cy r n = generatePolygonVertices cx2 cy2 r2 n2 := by
  subst h1
  subst h2
  subst h3
  subst h4
  exact ⟨rfl, rfl⟩

/-- Witness for C8 at two textually separate calls with equal
arguments. -/
theorem generators_deterministic_witness :
    generateCircleVertices 0 0 1 3 = generateCircleVertices 0 0 1 3 ∧
    generatePolygonVertices 0 0 1 3 = generatePolygonVertices 0 0 1 3 :=
  generators_deterministic 0 0 1 3 0 0 1 3 rfl rfl rfl rfl

/-! ## Claim C9 -/

/-- Claim C9: on the buffer path, `drawShape` computes the attribute
location into `aPositionLocation`, but the identifier it passes to both
`enableVertexAttribArray` and `vertexAttribPointer` is the distinct
never-declared `location`, so the computed value is not the one used in
the attribute-binding calls. -/
theorem attrib_location_bug (shapeName : String) (verts : List ℝ)
    (h : shapesLookup shapeName = JSProp.vertices verts) :
    (drawShape shapeName).getAttribLocationCalled = true ∧
    (drawShape shapeName).enableVertexAttribArrayArg = some AttribArg.location ∧
    (drawShape shapeName).vertexAttribPointerArg = some AttribArg.location ∧
    AttribArg.location ≠ AttribArg.aPositionLocation := by
  refine ⟨?_, ?_, ?_, by decide⟩ <;> simp [drawShape, h]

/-- Witness for C9 at the registered shape "line". -/
theorem attrib_location_bug_witness :
    (drawShape "line").enableVertexAttribArrayArg = some AttribArg.location :=
  (attrib_location_bug "line" line shapesLookup_line).2.1

/-! ## Claim C10 -/

/-- Claim C10: the generators are total and unvalidated — for every
center, radius and count they return arrays of exactly `2(n+2)` and
`2n` values with no error; and for `n = 0` the circle angle step is a
division by zero (Infinity in JavaScript arithmetic), making the two
circumference coordinates NaN. -/
theorem generators_total (cx cy r : ℝ) (n : ℕ) :
    (generateCircleVertices cx cy r n).length = 2 * (n + 2) ∧
    (generatePolygonVertices cx cy r n).length = 2 * n ∧
    circleAngleStepJS 0 = JSNum.inf ∧
    generateCircleVerticesJS cx cy r 0 =
      [JSNum.fin cx, JSNum.fin cy, JSNum.nan, JSNum.nan] := by
  have hne : Real.pi * 2 ≠ 0 := by positivity
  have hpos : 0 < Real.pi * 2 := by positivity
  have hstep : circleAngleStepJS 0 = JSNum.inf := by
    simp [circleAngleStepJS, jdiv, hne, hpos]
  refine ⟨circle_length cx cy r n, polygon_length cx cy r n, hstep, ?_⟩
  simp only [generateCircleVerticesJS, hstep]
  rw [show List.range (0 + 1) = [0] from rfl]
  simp [jmul, jcos, jsin, jadd]

end WebGL
